import Mathlib

/-!
Verification development for the real-estate backend (src/main.py).

The document store holds semi-structured documents; we model a stored value
as `BVal` and a document as an association list from field names to values.
Timestamps are abstracted as natural-number instants, store identities as
their hexadecimal string rendering.

The repository's `database.py` and `schemas.py` are not part of the core
sources; the store-side behaviour (predicate execution, identity parsing,
document insertion) is modelled from the specification where noted.
-/

namespace RealEstate

/-- A stored document value: string, number (rationals stand in for the
store's numerics), boolean, timestamp (abstract instant), store identity
(carrying its hexadecimal rendering), or array. -/
inductive BVal where
  | str (s : String)
  | num (q : ℚ)
  | bool (b : Bool)
  | dt (t : Nat)
  | oid (hex : String)
  | arr (xs : List BVal)
  deriving Repr, BEq

/-- A raw document: an association list of field names to values, standing
for a Python dict (insertion-ordered, keys unique). -/
abbrev Doc := List (String × BVal)

/-- Modelled from the spec: `datetime.isoformat`, abstracted as an injective
rendering of the instant into a string. -/
def isoformat (t : Nat) : String := "1970-01-01T00:00:" ++ toString t

/-- Python `str(...)` applied to a document value (only the identity and
string cases are ever reached by the code under verification). -/
def pyStr : BVal → String
  | .str s => s
  | .num q => toString q
  | .bool b => Bool.rec "False" "True" b
  | .dt t => isoformat t
  | .oid h => h
  | .arr _ => "[...]"

/-- Python dict assignment `doc[k] = v`: overwrite in place when the key
exists, otherwise append at the end. -/
def setKey (doc : Doc) (k : String) (v : BVal) : Doc :=
  if doc.any (fun p => p.1 == k) then
    doc.map (fun p => cond (p.1 == k) (k, v) p)
  else doc ++ [(k, v)]

/-- The timestamp-conversion loop of `serialize_doc` (src/main.py lines
40-42): every top-level `datetime` value becomes its isoformat string. -/
def convTimestamps (doc : Doc) : Doc :=
  doc.map (fun p =>
    match p.2 with
    | .dt t => (p.1, BVal.str (isoformat t))
    | _ => p)

/-- `serialize_doc` (src/main.py lines 33-43): falsy input maps to the empty
dict; otherwise the raw `_id` field is popped and re-inserted as a string
under `id`, and every top-level timestamp is converted to isoformat. -/
def serialize_doc (doc : Doc) : Doc :=
  if doc.isEmpty then []
  else
    let d1 :=
      match List.lookup "_id" doc with
      | some v => setKey (doc.filter (fun p => p.1 != "_id")) "id" (BVal.str (pyStr v))
      | none => doc
    convTimestamps d1

/-! ### The store's regular-expression matching

Modelled from the spec: `database.py` (absent from src/) forwards the filter
mapping to the document store, whose `$regex` operator with option `"i"`
performs a case-insensitive regular-expression search. We model the
fragment of patterns the code can generate: literal characters, the `.`
wildcard, a leading `^` anchor and a trailing `$` anchor. -/

/-- One pattern atom against one text character, case-insensitively:
`.` matches anything, any other pattern character matches up to case. -/
def atomMatch (p c : Char) : Bool := p == '.' || p.toLower == c.toLower

/-- The pattern consumes an initial segment of the text. -/
def matchFront : List Char → List Char → Bool
  | [], _ => true
  | _ :: _, [] => false
  | p :: ps, c :: cs => atomMatch p c && matchFront ps cs

/-- The pattern consumes the whole text. -/
def matchWhole : List Char → List Char → Bool
  | [], [] => true
  | [], _ :: _ => false
  | _ :: _, [] => false
  | p :: ps, c :: cs => atomMatch p c && matchWhole ps cs

/-- The pattern matches somewhere in the text (unanchored search). -/
def searchAny (ps : List Char) : List Char → Bool
  | [] => matchFront ps []
  | c :: cs => matchFront ps (c :: cs) || searchAny ps cs

/-- The pattern consumes a final segment of the text. -/
def matchBack (ps : List Char) : List Char → Bool
  | [] => matchWhole ps []
  | c :: cs => matchWhole ps (c :: cs) || matchBack ps cs

/-- Case-insensitive regular-expression search, as the store executes
`$regex` with options `"i"`: an optional leading `^` anchors at the start,
an optional trailing `$` anchors at the end, and the body is searched for
anywhere in the text otherwise. -/
def regexSearchI (pat s : String) : Bool :=
  let ps := pat.toList
  if ps.head? = some '^' then
    if ps.tail.getLast? = some '$' then matchWhole ps.tail.dropLast s.toList
    else matchFront ps.tail s.toList
  else
    if ps.getLast? = some '$' then matchBack ps.dropLast s.toList
    else searchAny ps s.toList

/-- The regular-expression metacharacters. -/
def regexMeta : List Char :=
  ['\\', '^', '$', '.', '[', ']', '|', '(', ')', '?', '*', '+', '\x7b', '\x7d']

/-- A string is a plain literal when it contains no regular-expression
metacharacter. -/
def plainLit (s : String) : Bool := s.toList.all (fun c => !regexMeta.contains c)

/-- An initial run of `hay` equals `needle`. -/
def chunkAt : List Char → List Char → Bool
  | [], _ => true
  | _ :: _, [] => false
  | a :: as, b :: bs => a == b && chunkAt as bs

/-- `needle` occurs contiguously somewhere in `hay`. -/
def hasChunk (needle : List Char) : List Char → Bool
  | [] => chunkAt needle []
  | b :: bs => chunkAt needle (b :: bs) || hasChunk needle bs

/-- `hay` contains `needle` as a case-insensitive substring. -/
def containsCI (hay needle : String) : Bool :=
  hasChunk (needle.toList.map Char.toLower) (hay.toList.map Char.toLower)

/-- Case-insensitive equality of whole strings. -/
def eqCI (a b : String) : Bool :=
  a.toList.map Char.toLower == b.toList.map Char.toLower

/-! ### Search criteria and the filter builder -/

/-- The optional search criteria accepted by `list_properties`
(src/main.py lines 87-95). `bedrooms` is an integer query parameter with a
lower bound of 0, hence a natural number here; the other numeric fields are
non-negative floats, modelled by rationals. -/
structure Criteria where
  city : Option String := none
  property_type : Option String := none
  min_price : Option ℚ := none
  max_price : Option ℚ := none
  bedrooms : Option Nat := none
  bathrooms : Option ℚ := none
  q : Option String := none
  featured : Option Bool := none
  deriving Repr

/-- A single-field condition inside the filter mapping: a case-insensitive
regular-expression condition, boolean equality, or an inclusive comparison
range (dollar-gte and dollar-lte bounds, either possibly absent). -/
inductive MCond where
  | regexI (pat : String)
  | eqB (b : Bool)
  | cmp (ge : Option ℚ) (le : Option ℚ)
  deriving Repr, BEq

/-- One entry of the filter mapping: a field condition, or the dollar-or
group (a list of single-field conditions, at least one of which must
hold). -/
inductive MClause where
  | field (name : String) (c : MCond)
  | orGroup (alts : List (String × MCond))
  deriving Repr, BEq

/-- The dollar-or group emitted for a free-text query (src/main.py lines
117-122). -/
def qOrGroup (qs : String) : List (String × MCond) :=
  [("title", MCond.regexI qs), ("description", MCond.regexI qs),
   ("city", MCond.regexI qs), ("state", MCond.regexI qs)]

/-- The filter builder inside `list_properties` (src/main.py lines 98-122),
in the insertion order of the Python dict: city, property type, featured,
price range, bedrooms, bathrooms, free text. Python truthiness on the
string criteria (`if city:` and the like) skips both absent and empty
strings; the numeric and boolean criteria are tested against `None`
only. -/
def buildFilters (c : Criteria) : List MClause :=
  (match c.city with
   | some s => if s = "" then [] else [MClause.field "city" (MCond.regexI s)]
   | none => []) ++
  (match c.property_type with
   | some s =>
       if s = "" then []
       else [MClause.field "property_type" (MCond.regexI ("^" ++ s ++ "$"))]
   | none => []) ++
  (match c.featured with
   | some b => [MClause.field "featured" (MCond.eqB b)]
   | none => []) ++
  (if c.min_price.isSome || c.max_price.isSome then
     [MClause.field "price" (MCond.cmp c.min_price c.max_price)]
   else []) ++
  (match c.bedrooms with
   | some b => [MClause.field "bedrooms" (MCond.cmp (some (b : ℚ)) none)]
   | none => []) ++
  (match c.bathrooms with
   | some b => [MClause.field "bathrooms" (MCond.cmp (some b) none)]
   | none => []) ++
  (match c.q with
   | some s => if s = "" then [] else [MClause.orGroup (qOrGroup s)]
   | none => [])

/-! ### Predicate execution by the store -/

/-- Modelled from the spec: how the document store evaluates one field
condition against the (possibly absent) value of the named field. A
regular-expression condition requires a string value, boolean equality a
boolean value, and a comparison range a numeric value; a document lacking
the field matches none of them. -/
def matchesCond : Option BVal → MCond → Bool
  | some (BVal.str s), MCond.regexI pat => regexSearchI pat s
  | _, MCond.regexI _ => false
  | some (BVal.bool b), MCond.eqB b2 => b == b2
  | _, MCond.eqB _ => false
  | some (BVal.num n), MCond.cmp ge le =>
      (match ge with | some g => decide (g ≤ n) | none => true) &&
      (match le with | some l => decide (n ≤ l) | none => true)
  | _, MCond.cmp _ _ => false

/-- Modelled from the spec: one clause of the filter mapping holds of a
document — a field clause via its condition, a dollar-or group when at
least one alternative holds. -/
def matchesClause (doc : Doc) : MClause → Bool
  | MClause.field k c => matchesCond (List.lookup k doc) c
  | MClause.orGroup alts => alts.any (fun a => matchesCond (List.lookup a.1 doc) a.2)

/-- Modelled from the spec: the whole filter mapping is the conjunction of
its clauses. -/
def matchesFilters (doc : Doc) (fs : List MClause) : Bool :=
  fs.all (matchesClause doc)

/-- Modelled from the spec: `get_documents` of the absent `database.py` —
the store returns exactly the documents of the collection satisfying the
filter mapping. -/
def get_documents (coll : List Doc) (fs : List MClause) : List Doc :=
  coll.filter (fun d => matchesFilters d fs)

/-! ### The list endpoints -/

/-- The output comprehension of the list endpoints (src/main.py line 125):
one `PropertyOut` per document, built from its serialization; the first
failing construction aborts the comprehension with that failure. `mkOut`
is the `PropertyOut` constructor, modelled from the spec as an arbitrary
fallible validation step (`schemas.py` is outside the core). -/
def buildOuts (mkOut : Doc → Except String Doc) : List Doc → Except String (List Doc)
  | [] => Except.ok []
  | d :: ds =>
      match mkOut (serialize_doc d) with
      | Except.ok o =>
          match buildOuts mkOut ds with
          | Except.ok os => Except.ok (o :: os)
          | Except.error e => Except.error e
      | Except.error e => Except.error e

/-- The fallible body of `list_properties` (src/main.py lines 97-125):
ask the store for the matching documents, then build one output per
document from its serialization. `storeList` is the behaviour of the
underlying store on this call; either step may fail. -/
def run_list (c : Criteria) (storeList : List MClause → Except String (List Doc))
    (mkOut : Doc → Except String Doc) : Except String (List Doc) :=
  (storeList (buildFilters c)).bind (fun docs => buildOuts mkOut docs)

/-- `list_properties` (src/main.py lines 87-128): the whole body runs under
a try/except that turns any failure into the empty list. -/
def list_properties (c : Criteria) (storeList : List MClause → Except String (List Doc))
    (mkOut : Doc → Except String Doc) : List Doc :=
  match run_list c storeList mkOut with
  | Except.ok outs => outs
  | Except.error _ => []

/-- The filter used by the featured listing (src/main.py line 134). -/
def featuredFilter : List MClause := [MClause.field "featured" (MCond.eqB true)]

/-- `featured_properties` (src/main.py lines 131-137): list the documents
matching the fixed featured filter, degrading to the empty list on any
failure. -/
def featured_properties (storeList : List MClause → Except String (List Doc))
    (mkOut : Doc → Except String Doc) : List Doc :=
  match (storeList featuredFilter).bind (fun docs => buildOuts mkOut docs) with
  | Except.ok outs => outs
  | Except.error _ => []

/-! ### The point lookup -/

/-- The failure signals of the point lookup, as surfaced by `get_property`
(HTTP 503, 404 and 400 respectively in src/main.py lines 140-153). -/
inductive GetPropErr where
  | storeUnavailable
  | notFound
  | invalidId
  deriving Repr, DecidableEq

/-- Modelled from the spec: a well-formed identity token for the store —
`bson.ObjectId` accepts exactly the 24-character hexadecimal strings. -/
def isValidObjectId (s : String) : Bool :=
  s.toList.length == 24 && s.toList.all (fun c =>
    ('0' ≤ c && c ≤ '9') || ('a' ≤ c && c ≤ 'f') || ('A' ≤ c && c ≤ 'F'))

/-- Modelled from the spec: the outcome of the store's `find_one` call for
the requested identity — the document, a miss, or a failure of the call
itself (for instance the store becoming unreachable mid-call, which the
driver raises as an exception). -/
inductive LookupOutcome where
  | found (d : Doc)
  | missing
  | storeFailure
  deriving Repr

/-- `get_property` (src/main.py lines 140-153): with no store handle the
operation fails as unavailable; then the identity token is parsed (a
malformed token raises, landing in the catch-all that reports an invalid
identifier); then the document is looked up — a miss raises the not-found
signal, which is re-raised as such, while any other exception (including a
failing `find_one` call) lands in the same catch-all; on success the
serialized document is returned. -/
def get_property (dbAvail : Bool) (outcome : LookupOutcome) (pid : String) :
    Except GetPropErr Doc :=
  if dbAvail = false then Except.error GetPropErr.storeUnavailable
  else if isValidObjectId pid = false then Except.error GetPropErr.invalidId
  else
    match outcome with
    | LookupOutcome.storeFailure => Except.error GetPropErr.invalidId
    | LookupOutcome.missing => Except.error GetPropErr.notFound
    | LookupOutcome.found d => Except.ok (serialize_doc d)

/-! ### The seed loader -/

/-- First sample document (src/main.py lines 170-190). -/
def sampleDoc0 (now : Nat) : Doc :=
  [("title", BVal.str "Modern Family House"),
   ("description", BVal.str "Spacious 4-bedroom home with open floor plan and large backyard."),
   ("price", BVal.num 549000),
   ("address", BVal.str "123 Maple Street"),
   ("city", BVal.str "Springfield"),
   ("state", BVal.str "IL"),
   ("zip_code", BVal.str "62704"),
   ("bedrooms", BVal.num 4),
   ("bathrooms", BVal.num (5 / 2)),
   ("area_sqft", BVal.num 2400),
   ("property_type", BVal.str "House"),
   ("images", BVal.arr
     [BVal.str "https://images.unsplash.com/photo-1572120360610-d971b9d7767c",
      BVal.str "https://images.unsplash.com/photo-1560518883-ce09059eeffa"]),
   ("amenities", BVal.arr [BVal.str "Garage", BVal.str "Garden", BVal.str "Central Air"]),
   ("featured", BVal.bool true),
   ("status", BVal.str "For Sale"),
   ("listed_at", BVal.dt now)]

/-- Second sample document (src/main.py lines 191-211). -/
def sampleDoc1 (now : Nat) : Doc :=
  [("title", BVal.str "Downtown City Apartment"),
   ("description", BVal.str "Stylish 2-bed apartment close to shops, cafes, and public transit."),
   ("price", BVal.num 329000),
   ("address", BVal.str "456 Oak Avenue, Apt 12B"),
   ("city", BVal.str "Metro City"),
   ("state", BVal.str "NY"),
   ("zip_code", BVal.str "10001"),
   ("bedrooms", BVal.num 2),
   ("bathrooms", BVal.num 1),
   ("area_sqft", BVal.num 900),
   ("property_type", BVal.str "Apartment"),
   ("images", BVal.arr
     [BVal.str "https://images.unsplash.com/photo-1505693416388-ac5ce068fe85",
      BVal.str "https://images.unsplash.com/photo-1501183638710-841dd1904471"]),
   ("amenities", BVal.arr [BVal.str "Elevator", BVal.str "Doorman", BVal.str "Gym"]),
   ("featured", BVal.bool true),
   ("status", BVal.str "For Sale"),
   ("listed_at", BVal.dt now)]

/-- Third sample document (src/main.py lines 212-232). -/
def sampleDoc2 (now : Nat) : Doc :=
  [("title", BVal.str "Cozy Suburban Condo"),
   ("description", BVal.str "Bright 1-bedroom condo with balcony and community pool."),
   ("price", BVal.num 189000),
   ("address", BVal.str "789 Pine Lane, Unit 305"),
   ("city", BVal.str "Lakeside"),
   ("state", BVal.str "CA"),
   ("zip_code", BVal.str "92040"),
   ("bedrooms", BVal.num 1),
   ("bathrooms", BVal.num 1),
   ("area_sqft", BVal.num 650),
   ("property_type", BVal.str "Condo"),
   ("images", BVal.arr
     [BVal.str "https://images.unsplash.com/photo-1493809842364-78817add7ffb",
      BVal.str "https://images.unsplash.com/photo-1512917774080-9991f1c4c750"]),
   ("amenities", BVal.arr [BVal.str "Pool", BVal.str "Clubhouse"]),
   ("featured", BVal.bool false),
   ("status", BVal.str "For Sale"),
   ("listed_at", BVal.dt now)]

/-- The fixed sample list of `seed_properties` (src/main.py lines 169-233);
the three `datetime.utcnow()` timestamps are abstracted as one instant. -/
def sample_data (now : Nat) : List Doc :=
  [sampleDoc0 now, sampleDoc1 now, sampleDoc2 now]

/-- The insertion loop of `seed_properties` (src/main.py lines 235-242):
each item is inserted in turn; `ok i` says whether the i-th
`create_document` call succeeds (modelled from the spec: an insert may fail
with an unavailable-store or write error, and a successful insert appends
the document to the collection, identity assignment abstracted away). A
failed insert is caught and skipped; the loop returns the number of
successful inserts together with the documents actually inserted, in
order. -/
def seedInsertLoop : List Doc → (Nat → Bool) → Nat → Nat × List Doc
  | [], _, _ => (0, [])
  | d :: ds, ok, i =>
      let rest := seedInsertLoop ds ok (i + 1)
      if ok i then (rest.1 + 1, d :: rest.2) else (rest.1, rest.2)

/-- `seed_properties` (src/main.py lines 161-242): with no store handle the
operation fails as unavailable; if the collection already holds any
document, nothing is written and 0 is returned; otherwise the fixed sample
list is inserted best-effort and the count of successful inserts returned,
together with the resulting collection state. -/
def seed_properties (dbAvail : Bool) (coll : List Doc) (now : Nat)
    (ok : Nat → Bool) : Except Unit (Nat × List Doc) :=
  if dbAvail = false then Except.error ()
  else if coll.length > 0 then Except.ok (0, coll)
  else
    let r := seedInsertLoop (sample_data now) ok 0
    Except.ok (r.1, coll ++ r.2)

/-! ### Concrete fixtures used by witnesses and counterexamples -/

/-- The criteria record with every field absent. -/
def emptyCriteria : Criteria := {}

/-- Criteria carrying only a price range. -/
def priceCrit (mn mx : Option ℚ) : Criteria := { min_price := mn, max_price := mx }

/-- A fixture collection of three documents: the sample data at instant 0. -/
def fixture3 : List Doc := sample_data 0

/-- A well-formed identity token (24 hexadecimal characters). -/
def demoId : String := "0123456789abcdef01234567"

/-- Criteria whose free-text field is present but empty. -/
def critEmptyQ : Criteria := { q := some "" }

/-- Criteria whose free-text field is the regular-expression wildcard. -/
def critDotQ : Criteria := { q := some "." }

/-- Criteria whose property-type field is the regular-expression wildcard. -/
def critDotType : Criteria := { property_type := some "." }

/-- A one-field document whose title is the single letter x. -/
def docTitleX : Doc := [("title", BVal.str "x")]

/-- Criteria whose city field is the regular-expression wildcard. -/
def critDotCity : Criteria := { city := some "." }

/-- Criteria carrying only the free-text query pool. -/
def critPool : Criteria := { q := some "pool" }

/-- A one-field document whose city is the single letter x. -/
def docCityX : Doc := [("city", BVal.str "x")]

/-- A one-field document whose property type is the single letter x. -/
def docTypeX : Doc := [("property_type", BVal.str "x")]

end RealEstate

/-! ## Helper lemmas -/

namespace RealEstate

theorem not_mem_data_of_plainLit {s : String} (h : plainLit s = true)
    {c : Char} (hc : c ∈ regexMeta) : c ∉ s.data := by
  intro hmem
  have hall := List.all_eq_true.mp h _ hmem
  simp at hall
  exact hall hc

theorem head?_ne {l : List Char} {a : Char} (h : a ∉ l) : ¬ (l.head? = some a) := by
  cases l with
  | nil => simp
  | cons b t =>
    intro hh
    simp only [List.head?_cons, Option.some.injEq] at hh
    exact h (hh ▸ List.mem_cons_self b t)

theorem getLast?_ne {l : List Char} {a : Char} (h : a ∉ l) : ¬ (l.getLast? = some a) := by
  intro hh
  exact h (List.mem_of_mem_getLast? hh)

/-- On a pattern free of metacharacters the store's search is the
unanchored scan. -/
theorem regexSearchI_plain {p : String} (h : plainLit p = true) (s : String) :
    regexSearchI p s = searchAny p.data s.data := by
  have h1 : ¬ (p.data.head? = some '^') :=
    head?_ne (not_mem_data_of_plainLit h (by decide))
  have h2 : ¬ (p.data.getLast? = some '$') :=
    getLast?_ne (not_mem_data_of_plainLit h (by decide))
  simp [regexSearchI, String.toList, h1, h2]

/-- A pattern of the shape emitted for the property type is an anchored
whole-string match of its body. -/
theorem regexSearchI_anchored (p s : String) :
    regexSearchI ("^" ++ p ++ "$") s = matchWhole p.data s.data := by
  have hdata : ("^" ++ p ++ "$").data = '^' :: (p.data ++ ['$']) := by
    simp [String.data_append]
  simp [regexSearchI, String.toList, hdata]

theorem matchFront_eq_chunkAt : ∀ (ps : List Char), '.' ∉ ps → ∀ (cs : List Char),
    matchFront ps cs = chunkAt (ps.map Char.toLower) (cs.map Char.toLower)
  | [], _, cs => by cases cs <;> rfl
  | p :: ps, h, [] => rfl
  | p :: ps, h, c :: cs => by
    have hp : (p == '.') = false := by
      have hne : p ≠ '.' := fun he => h (he ▸ List.mem_cons_self _ _)
      simp [hne]
    have h2 : '.' ∉ ps := fun hm => h (List.mem_cons_of_mem _ hm)
    simp [matchFront, chunkAt, atomMatch, hp, matchFront_eq_chunkAt ps h2 cs]

/-- On a wildcard-free pattern the unanchored scan is exactly the
case-insensitive substring occurrence test. -/
theorem searchAny_eq_hasChunk (ps : List Char) (h : '.' ∉ ps) (cs : List Char) :
    searchAny ps cs = hasChunk (ps.map Char.toLower) (cs.map Char.toLower) := by
  induction cs with
  | nil => simp [searchAny, hasChunk, matchFront_eq_chunkAt ps h]
  | cons c cs ih => simp [searchAny, hasChunk, matchFront_eq_chunkAt ps h, ih]

/-- On a wildcard-free pattern the whole-string match is exactly
case-insensitive string equality. -/
theorem matchWhole_iff : ∀ (ps : List Char), '.' ∉ ps → ∀ (cs : List Char),
    (matchWhole ps cs = true ↔ ps.map Char.toLower = cs.map Char.toLower)
  | [], _, cs => by cases cs <;> simp [matchWhole]
  | p :: ps, h, [] => by simp [matchWhole]
  | p :: ps, h, c :: cs => by
    have hp : (p == '.') = false := by
      have hne : p ≠ '.' := fun he => h (he ▸ List.mem_cons_self _ _)
      simp [hne]
    have h2 : '.' ∉ ps := fun hm => h (List.mem_cons_of_mem _ hm)
    simp [matchWhole, atomMatch, hp, matchWhole_iff ps h2 cs]

theorem dot_not_mem {s : String} (h : plainLit s = true) : '.' ∉ s.data :=
  not_mem_data_of_plainLit h (by decide)

/-- A metacharacter-free regular-expression condition holds of a field
value exactly when that value is a string containing the pattern as a
case-insensitive substring. -/
theorem regexCond_search_iff {q : String} (hq : plainLit q = true) (o : Option BVal) :
    (matchesCond o (MCond.regexI q) = true ↔
      ∃ s, o = some (BVal.str s) ∧ containsCI s q = true) := by
  cases o with
  | none => simp [matchesCond]
  | some v =>
    cases v with
    | str s =>
      have hrw : matchesCond (some (BVal.str s)) (MCond.regexI q) = regexSearchI q s := rfl
      rw [hrw, regexSearchI_plain hq, searchAny_eq_hasChunk _ (dot_not_mem hq)]
      constructor
      · intro hm
        exact ⟨s, rfl, hm⟩
      · rintro ⟨s2, hs2, hm⟩
        have hss : s2 = s := by
          injection hs2 with h1
          injection h1 with h2
          exact h2.symm
        exact hss ▸ hm
    | num n => simp [matchesCond]
    | bool b => simp [matchesCond]
    | dt t => simp [matchesCond]
    | oid h2 => simp [matchesCond]
    | arr xs => simp [matchesCond]

/-- An anchored metacharacter-free regular-expression condition holds of a
field value exactly when that value is a string equal to the pattern body
up to case. -/
theorem regexCond_whole_iff {p : String} (hp : plainLit p = true) (o : Option BVal) :
    (matchesCond o (MCond.regexI ("^" ++ p ++ "$")) = true ↔
      ∃ s, o = some (BVal.str s) ∧ eqCI p s = true) := by
  cases o with
  | none => simp [matchesCond]
  | some v =>
    cases v with
    | str s =>
      have he : matchesCond (some (BVal.str s)) (MCond.regexI ("^" ++ p ++ "$")) =
          regexSearchI ("^" ++ p ++ "$") s := rfl
      rw [he, regexSearchI_anchored, matchWhole_iff _ (dot_not_mem hp)]
      constructor
      · intro hm
        refine ⟨s, rfl, ?_⟩
        simp [eqCI, String.toList, hm]
      · rintro ⟨s2, hs2, hm⟩
        have hss : s2 = s := by
          injection hs2 with h1
          injection h1 with h2
          exact h2.symm
        subst hss
        simp [eqCI, String.toList] at hm
        exact hm
    | num n => simp [matchesCond]
    | bool b => simp [matchesCond]
    | dt t => simp [matchesCond]
    | oid h2 => simp [matchesCond]
    | arr xs => simp [matchesCond]

end RealEstate

namespace RealEstate

theorem convTimestamps_idem (l : Doc) : convTimestamps (convTimestamps l) = convTimestamps l := by
  induction l with
  | nil => rfl
  | cons p t ih =>
    obtain ⟨k, v⟩ := p
    cases v <;> simp [convTimestamps] at ih ⊢ <;> exact ih

theorem lookup_convTimestamps_none {k : String} {l : Doc}
    (h : List.lookup k l = none) : List.lookup k (convTimestamps l) = none := by
  induction l with
  | nil => rfl
  | cons p t ih =>
    obtain ⟨k2, v⟩ := p
    cases hbeq : (k == k2) with
    | true =>
      rw [List.lookup, hbeq] at h
      exact absurd h (by simp)
    | false =>
      rw [List.lookup, hbeq] at h
      cases v <;> simp [convTimestamps, List.lookup, hbeq] <;>
        simpa [convTimestamps] using ih h

theorem lookup_map_overwrite {k k2 : String} (hne : (k == k2) = false) (v : BVal) :
    ∀ l : Doc, List.lookup k (l.map (fun p => cond (p.1 == k2) (k2, v) p)) =
      List.lookup k l
  | [] => rfl
  | p :: t => by
    cases hp : (p.1 == k2) with
    | true =>
      have hkp : (k == p.1) = false := by
        have h1 : p.1 = k2 := by simpa using hp
        rw [h1]
        exact hne
      simp [List.lookup, hp, hne, hkp, lookup_map_overwrite hne v t]
    | false =>
      cases hk : (k == p.1) with
      | true => simp [List.lookup, hp, hk]
      | false => simp [List.lookup, hp, hk, lookup_map_overwrite hne v t]

theorem lookup_append_single_ne {k k2 : String} (hne : (k == k2) = false) (v : BVal) :
    ∀ l : Doc, List.lookup k (l ++ [(k2, v)]) = List.lookup k l
  | [] => by simp [List.lookup, hne]
  | p :: t => by
    cases hk : (k == p.1) with
    | true => simp [List.lookup, hk]
    | false => simp [List.lookup, hk, lookup_append_single_ne hne v t]

theorem lookup_setKey_ne {k k2 : String} (hne : (k == k2) = false) (l : Doc) (v : BVal) :
    List.lookup k (setKey l k2 v) = List.lookup k l := by
  unfold setKey
  by_cases h : (l.any (fun p => p.1 == k2)) = true
  · rw [if_pos h]
    exact lookup_map_overwrite hne v l
  · rw [if_neg h]
    exact lookup_append_single_ne hne v l

theorem lookup_filter_self_none (k : String) : ∀ l : Doc,
    List.lookup k (l.filter (fun p => p.1 != k)) = none
  | [] => rfl
  | p :: t => by
    cases hp : (p.1 != k) with
    | true =>
      have hk : (k == p.1) = false := by
        have hne2 : p.1 ≠ k := by simpa using hp
        simp [Ne.symm hne2]
      simp [List.filter_cons, hp, List.lookup, hk, lookup_filter_self_none k t]
    | false => simp [List.filter_cons, hp, lookup_filter_self_none k t]

/-- The serializer never leaves a raw identity field in its output. -/
theorem serialize_doc_lookup_id_none (doc : Doc) :
    List.lookup "_id" (serialize_doc doc) = none := by
  unfold serialize_doc
  by_cases he : doc.isEmpty = true
  · rw [if_pos he]
    rfl
  · rw [if_neg he]
    apply lookup_convTimestamps_none
    cases hl : List.lookup "_id" doc with
    | none => exact hl
    | some v =>
      rw [lookup_setKey_ne (by decide)]
      exact lookup_filter_self_none _ doc

/-- The timestamp pass is already exhausted on serializer output. -/
theorem conv_serialize (doc : Doc) :
    convTimestamps (serialize_doc doc) = serialize_doc doc := by
  unfold serialize_doc
  by_cases he : doc.isEmpty = true
  · rw [if_pos he]
    rfl
  · rw [if_neg he]
    exact convTimestamps_idem _

/-- A document with no raw identity field and no remaining timestamp work
is a fixed point of the serializer. -/
theorem serialize_fixed {l : Doc} (hid : List.lookup "_id" l = none)
    (hconv : convTimestamps l = l) : serialize_doc l = l := by
  unfold serialize_doc
  by_cases he : l.isEmpty = true
  · rw [if_pos he]
    exact (List.isEmpty_iff.mp he).symm
  · rw [if_neg he, hid]
    exact hconv

/-- Serializer output carries no timestamp value at the top level. -/
theorem serialize_doc_no_dt (doc : Doc) :
    ∀ p ∈ serialize_doc doc, ∀ u, p.2 ≠ BVal.dt u := by
  intro p hp u
  have hc := conv_serialize doc
  rw [← hc] at hp
  simp only [convTimestamps, List.mem_map] at hp
  obtain ⟨⟨a, b⟩, hab, hfab⟩ := hp
  cases b <;> subst hfab <;> simp

end RealEstate

/-! ## Claim theorems -/

namespace RealEstate

theorem buildOuts_ok (docs : List Doc) :
    buildOuts (fun d => Except.ok d) docs = Except.ok (docs.map serialize_doc) := by
  induction docs with
  | nil => rfl
  | cons d ds ih => simp [buildOuts, ih]

/-- C1: for the criteria record with every optional field absent, the filter
builder produces the empty filter mapping, the list operation returns every
document of the collection, and the endpoint succeeds (returning all
documents, serialized) rather than erroring. -/
theorem empty_criteria_matches_all :
    buildFilters emptyCriteria = [] ∧
    (∀ coll : List Doc, get_documents coll (buildFilters emptyCriteria) = coll) ∧
    (∀ coll : List Doc,
      list_properties emptyCriteria (fun fs => Except.ok (get_documents coll fs))
        (fun d => Except.ok d) = coll.map serialize_doc) := by
  have h0 : buildFilters emptyCriteria = [] := rfl
  have h1 : ∀ coll : List Doc, get_documents coll (buildFilters emptyCriteria) = coll := by
    intro coll
    rw [h0]
    simp [get_documents, matchesFilters]
  refine ⟨h0, h1, ?_⟩
  intro coll
  simp [list_properties, run_list, h1 coll, buildOuts_ok, Except.bind]

/-- C9: `serialize_doc` is idempotent — its output has no raw identity field
left to rename and no timestamp value left to convert, so a second
application is the identity — and empty input maps to the empty
representation rather than an error. -/
theorem serialize_doc_idempotent :
    (∀ doc : Doc, serialize_doc (serialize_doc doc) = serialize_doc doc) ∧
    (∀ doc : Doc, List.lookup "_id" (serialize_doc doc) = none) ∧
    (∀ doc : Doc, convTimestamps (serialize_doc doc) = serialize_doc doc) ∧
    serialize_doc [] = [] :=
  ⟨fun doc => serialize_fixed (serialize_doc_lookup_id_none doc) (conv_serialize doc),
   serialize_doc_lookup_id_none, conv_serialize, rfl⟩

/-- C10: an empty string supplied for city, property type or free text is
treated exactly like absence (it contributes no clause), whereas the
numeric criteria and the featured flag contribute a clause for every
non-absent value, including zero and false. -/
theorem falsy_strings_vs_numeric_zero :
    (∀ c : Criteria, buildFilters { c with city := some "" } = buildFilters { c with city := none }) ∧
    (∀ c : Criteria, buildFilters { c with property_type := some "" } =
      buildFilters { c with property_type := none }) ∧
    (∀ c : Criteria, buildFilters { c with q := some "" } = buildFilters { c with q := none }) ∧
    buildFilters { emptyCriteria with min_price := some 0 } =
      [MClause.field "price" (MCond.cmp (some 0) none)] ∧
    buildFilters { emptyCriteria with max_price := some 0 } =
      [MClause.field "price" (MCond.cmp none (some 0))] ∧
    buildFilters { emptyCriteria with bedrooms := some 0 } =
      [MClause.field "bedrooms" (MCond.cmp (some 0) none)] ∧
    buildFilters { emptyCriteria with bathrooms := some 0 } =
      [MClause.field "bathrooms" (MCond.cmp (some 0) none)] ∧
    buildFilters { emptyCriteria with featured := some false } =
      [MClause.field "featured" (MCond.eqB false)] := by
  refine ⟨fun c => ?_, fun c => ?_, fun c => ?_, ?_, ?_, ?_, ?_, ?_⟩ <;>
    simp [buildFilters, emptyCriteria]

/-- C7: on a non-empty collection the seed operation returns an inserted
count of 0 and leaves the collection untouched; since the state is
unchanged, repeating the call remains a no-op. -/
theorem seed_nonempty_noop (coll : List Doc) (now : Nat) (ok : Nat → Bool)
    (h : coll ≠ []) : seed_properties true coll now ok = Except.ok (0, coll) := by
  unfold seed_properties
  rw [if_neg (by simp), if_pos (List.length_pos.mpr h)]

theorem seed_nonempty_noop_witness :
    seed_properties true fixture3 0 (fun _ => true) = Except.ok (0, fixture3) :=
  seed_nonempty_noop fixture3 0 (fun _ => true) (List.cons_ne_nil _ _)

/-- C8: on an empty collection the seed operation attempts every sample
document in order; a failing insert is skipped without aborting the rest,
and the returned count is exactly the number of successful inserts (3 when
all succeed). -/
theorem seed_empty_best_effort (now : Nat) (ok : Nat → Bool) :
    seed_properties true [] now ok =
      Except.ok ((if ok 0 then 1 else 0) + (if ok 1 then 1 else 0) + (if ok 2 then 1 else 0),
        (if ok 0 then [sampleDoc0 now] else []) ++
        (if ok 1 then [sampleDoc1 now] else []) ++
        (if ok 2 then [sampleDoc2 now] else [])) := by
  unfold seed_properties
  rw [if_neg (by simp), if_neg (by simp)]
  cases h0 : ok 0 <;> cases h1 : ok 1 <;> cases h2 : ok 2 <;>
    simp [sample_data, seedInsertLoop, h0, h1, h2]

/-- C5: the bulk-read endpoints never propagate a failure: if the store call
fails, or the store call succeeds but building the outputs fails, both the
parametric listing and the featured listing return the empty sequence. -/
theorem list_paths_never_propagate (c : Criteria)
    (f : List MClause → Except String (List Doc)) (g : Doc → Except String Doc) :
    (∀ e, f (buildFilters c) = Except.error e → list_properties c f g = []) ∧
    (∀ docs e, f (buildFilters c) = Except.ok docs →
      buildOuts g docs = Except.error e → list_properties c f g = []) ∧
    (∀ e, f featuredFilter = Except.error e → featured_properties f g = []) ∧
    (∀ docs e, f featuredFilter = Except.ok docs →
      buildOuts g docs = Except.error e → featured_properties f g = []) := by
  refine ⟨?_, ?_, ?_, ?_⟩
  · intro e he
    simp [list_properties, run_list, he, Except.bind]
  · intro docs e hok he
    simp [list_properties, run_list, hok, he, Except.bind]
  · intro e he
    simp [featured_properties, he, Except.bind]
  · intro docs e hok he
    simp [featured_properties, hok, he, Except.bind]

theorem list_paths_never_propagate_witness :
    list_properties emptyCriteria (fun _ => Except.error "down") (fun d => Except.ok d) = [] :=
  (list_paths_never_propagate emptyCriteria (fun _ => Except.error "down")
    (fun d => Except.ok d)).1 "down" rfl

end RealEstate

namespace RealEstate

/-- C4: with both price bounds present the (single-clause) predicate matches
a priced document exactly when its price lies in the closed interval
between them; with one bound present only that inclusive bound clause is
emitted; bedrooms and bathrooms each become an inclusive lower-bound clause
with no upper bound. -/
theorem range_bounds_inclusive (mn mx bt : ℚ) (b : Nat) :
    buildFilters (priceCrit (some mn) (some mx)) =
      [MClause.field "price" (MCond.cmp (some mn) (some mx))] ∧
    (∀ (doc : Doc) (n : ℚ), List.lookup "price" doc = some (BVal.num n) →
      (matchesFilters doc (buildFilters (priceCrit (some mn) (some mx))) = true ↔
        (mn ≤ n ∧ n ≤ mx))) ∧
    buildFilters (priceCrit (some mn) none) =
      [MClause.field "price" (MCond.cmp (some mn) none)] ∧
    buildFilters (priceCrit none (some mx)) =
      [MClause.field "price" (MCond.cmp none (some mx))] ∧
    buildFilters { emptyCriteria with bedrooms := some b } =
      [MClause.field "bedrooms" (MCond.cmp (some (b : ℚ)) none)] ∧
    (∀ (doc : Doc) (n : ℚ), List.lookup "bedrooms" doc = some (BVal.num n) →
      (matchesFilters doc (buildFilters { emptyCriteria with bedrooms := some b }) = true ↔
        (b : ℚ) ≤ n)) ∧
    buildFilters { emptyCriteria with bathrooms := some bt } =
      [MClause.field "bathrooms" (MCond.cmp (some bt) none)] ∧
    (∀ (doc : Doc) (n : ℚ), List.lookup "bathrooms" doc = some (BVal.num n) →
      (matchesFilters doc (buildFilters { emptyCriteria with bathrooms := some bt }) = true ↔
        bt ≤ n)) := by
  refine ⟨rfl, ?_, rfl, rfl, rfl, ?_, rfl, ?_⟩ <;>
    (intro doc n hp
     simp [matchesFilters, matchesClause, matchesCond, hp, priceCrit, buildFilters, emptyCriteria])

theorem range_bounds_inclusive_witness :
    buildFilters (priceCrit (some 200000) (some 400000)) =
      [MClause.field "price" (MCond.cmp (some 200000) (some 400000))] ∧
    (matchesFilters (sampleDoc1 0) (buildFilters (priceCrit (some 200000) (some 400000))) = true ↔
      ((200000 : ℚ) ≤ 329000 ∧ (329000 : ℚ) ≤ 400000)) := by
  have h := range_bounds_inclusive 200000 400000 0 0
  exact ⟨h.1, h.2.1 (sampleDoc1 0) 329000 rfl⟩

/-- C2 (amended): for a free-text query that is present, non-empty and free
of regular-expression metacharacters, the builder appends a dollar-or group
of exactly four case-insensitive regular-expression constraints over title,
description, city and state, conjoined with all other emitted clauses, and
a document satisfies that group exactly when at least one of the four
fields is a string containing the query as a case-insensitive substring. -/
theorem free_text_or_group (c : Criteria) (qs : String) (hq : c.q = some qs)
    (hne : qs ≠ "") (hpl : plainLit qs = true) :
    buildFilters c = buildFilters { c with q := none } ++ [MClause.orGroup (qOrGroup qs)] ∧
    (∀ doc : Doc, matchesFilters doc (buildFilters c) =
      (matchesFilters doc (buildFilters { c with q := none }) &&
        matchesClause doc (MClause.orGroup (qOrGroup qs)))) ∧
    (∀ doc : Doc, matchesClause doc (MClause.orGroup (qOrGroup qs)) = true ↔
      ((∃ s, List.lookup "title" doc = some (BVal.str s) ∧ containsCI s qs = true) ∨
       (∃ s, List.lookup "description" doc = some (BVal.str s) ∧ containsCI s qs = true) ∨
       (∃ s, List.lookup "city" doc = some (BVal.str s) ∧ containsCI s qs = true) ∨
       (∃ s, List.lookup "state" doc = some (BVal.str s) ∧ containsCI s qs = true))) := by
  have h1 : buildFilters c =
      buildFilters { c with q := none } ++ [MClause.orGroup (qOrGroup qs)] := by
    simp [buildFilters, hq, hne]
  refine ⟨h1, ?_, ?_⟩
  · intro doc
    rw [h1]
    simp [matchesFilters, List.all_append]
  · intro doc
    simp [matchesClause, qOrGroup, regexCond_search_iff hpl]

theorem free_text_or_group_witness :
    buildFilters critPool =
      buildFilters { critPool with q := none } ++ [MClause.orGroup (qOrGroup "pool")] ∧
    matchesClause (sampleDoc2 0) (MClause.orGroup (qOrGroup "pool")) = true := by
  have h := free_text_or_group critPool "pool" rfl (by decide) (by decide)
  exact ⟨h.1, (h.2.2 (sampleDoc2 0)).mpr
    (Or.inr (Or.inl ⟨"Bright 1-bedroom condo with balcony and community pool.", rfl, by decide⟩))⟩

/-- C2 counterexample: a present-but-empty query contributes no dollar-or
group at all, and for the query consisting of the regular-expression
wildcard a document matches although none of the four fields contains the
query as a substring. -/
theorem free_text_counterexample :
    buildFilters critEmptyQ = [] ∧
    matchesFilters docTitleX (buildFilters critDotQ) = true ∧
    containsCI "x" "." = false ∧
    List.lookup "description" docTitleX = none ∧
    List.lookup "city" docTitleX = none ∧
    List.lookup "state" docTitleX = none :=
  ⟨rfl, rfl, rfl, rfl, rfl, rfl⟩

/-- C3 (amended): for a non-empty property type free of regular-expression
metacharacters, the emitted predicate matches a typed document exactly when
the type field equals the value case-insensitively as a whole; for a
non-empty metacharacter-free city value, exactly when the city field
contains it as a case-insensitive substring. -/
theorem string_match_plain (pt ct : String) (hpt : pt ≠ "") (hplpt : plainLit pt = true)
    (hct : ct ≠ "") (hplct : plainLit ct = true) :
    buildFilters { emptyCriteria with property_type := some pt } =
      [MClause.field "property_type" (MCond.regexI ("^" ++ pt ++ "$"))] ∧
    (∀ (doc : Doc) (s : String), List.lookup "property_type" doc = some (BVal.str s) →
      (matchesFilters doc (buildFilters { emptyCriteria with property_type := some pt }) = true ↔
        eqCI pt s = true)) ∧
    buildFilters { emptyCriteria with city := some ct } =
      [MClause.field "city" (MCond.regexI ct)] ∧
    (∀ (doc : Doc) (s : String), List.lookup "city" doc = some (BVal.str s) →
      (matchesFilters doc (buildFilters { emptyCriteria with city := some ct }) = true ↔
        containsCI s ct = true)) := by
  have hb1 : buildFilters { emptyCriteria with property_type := some pt } =
      [MClause.field "property_type" (MCond.regexI ("^" ++ pt ++ "$"))] := by
    simp [buildFilters, emptyCriteria, hpt]
  have hb2 : buildFilters { emptyCriteria with city := some ct } =
      [MClause.field "city" (MCond.regexI ct)] := by
    simp [buildFilters, emptyCriteria, hct]
  refine ⟨hb1, ?_, hb2, ?_⟩
  · intro doc s hp
    rw [hb1]
    have hiff := regexCond_whole_iff hplpt (List.lookup "property_type" doc)
    rw [hp] at hiff
    simp at hiff
    simpa [matchesFilters, matchesClause, hp] using hiff
  · intro doc s hp
    rw [hb2]
    have hiff := regexCond_search_iff hplct (List.lookup "city" doc)
    rw [hp] at hiff
    simp at hiff
    simpa [matchesFilters, matchesClause, hp] using hiff

theorem string_match_plain_witness :
    (matchesFilters (sampleDoc2 0)
        (buildFilters { emptyCriteria with property_type := some "condo" }) = true ↔
      eqCI "condo" "Condo" = true) ∧
    (matchesFilters (sampleDoc1 0)
        (buildFilters { emptyCriteria with city := some "metro" }) = true ↔
      containsCI "Metro City" "metro" = true) := by
  have h := string_match_plain "condo" "metro" (by decide) (by decide) (by decide) (by decide)
  exact ⟨h.2.1 (sampleDoc2 0) "Condo" rfl, h.2.2.2 (sampleDoc1 0) "Metro City" rfl⟩

/-- C3 counterexample: with the regular-expression wildcard as the value, a
document whose property type is the letter x matches the emitted predicate
although the two strings are not equal case-insensitively, and likewise the
city predicate matches although the city does not contain the value as a
substring. -/
theorem string_match_counterexample :
    matchesFilters docTypeX (buildFilters critDotType) = true ∧
    eqCI "." "x" = false ∧
    matchesFilters docCityX (buildFilters critDotCity) = true ∧
    containsCI "x" "." = false :=
  ⟨rfl, rfl, rfl, rfl⟩

/-- C6 (amended): the point lookup fails as unavailable when no store
handle exists, as an invalid identifier when the token is malformed, as
not-found when the document is absent, and returns the serialized document
on success; a failure of the lookup call itself (for instance the store
becoming unreachable mid-call) is reported as an invalid identifier, not as
unavailable. -/
theorem get_property_signals (pid : String) (d : Doc) :
    (∀ o, get_property false o pid = Except.error GetPropErr.storeUnavailable) ∧
    (isValidObjectId pid = false → ∀ o, get_property true o pid = Except.error GetPropErr.invalidId) ∧
    (isValidObjectId pid = true →
      get_property true LookupOutcome.missing pid = Except.error GetPropErr.notFound) ∧
    (isValidObjectId pid = true →
      get_property true (LookupOutcome.found d) pid = Except.ok (serialize_doc d)) ∧
    (isValidObjectId pid = true →
      get_property true LookupOutcome.storeFailure pid = Except.error GetPropErr.invalidId) := by
  refine ⟨fun o => rfl, ?_, ?_, ?_, ?_⟩
  · intro hv o
    unfold get_property
    rw [if_neg (by simp), if_pos hv]
  · intro hv
    unfold get_property
    rw [if_neg (by simp), if_neg (by simp [hv])]
  · intro hv
    unfold get_property
    rw [if_neg (by simp), if_neg (by simp [hv])]
  · intro hv
    unfold get_property
    rw [if_neg (by simp), if_neg (by simp [hv])]

theorem get_property_signals_witness :
    get_property false LookupOutcome.missing demoId = Except.error GetPropErr.storeUnavailable ∧
    (∀ o, get_property true o "zz" = Except.error GetPropErr.invalidId) ∧
    get_property true LookupOutcome.missing demoId = Except.error GetPropErr.notFound ∧
    get_property true LookupOutcome.storeFailure demoId = Except.error GetPropErr.invalidId := by
  have h1 := get_property_signals demoId (sampleDoc0 0)
  have h2 := get_property_signals "zz" (sampleDoc0 0)
  exact ⟨h1.1 LookupOutcome.missing, h2.2.1 (by decide), h1.2.2.1 (by decide),
    h1.2.2.2.2 (by decide)⟩

/-- C6 counterexample: with a store handle and a well-formed token, a
failing lookup call is reported as an invalid identifier, which is not the
unavailable signal the claim requires for a store that cannot be
reached. -/
theorem get_property_counterexample :
    get_property true LookupOutcome.storeFailure demoId = Except.error GetPropErr.invalidId ∧
    GetPropErr.invalidId ≠ GetPropErr.storeUnavailable :=
  ⟨rfl, by decide⟩

end RealEstate
